import Mathlib

/-!
Shallow embedding of UnwantedRecordsFBRefScraper.py and proofs about it.

The script scrapes six statistics tables from rendered HTML, drops rows
with missing cells, coerces columns to numeric where the whole column
parses, and computes tie-inclusive top-1 "unwanted records" queries.

Cell values are either text or numbers (rationals model both the int and
float results of numeric coercion).  A data frame is columnar, as in
pandas: a list of (column name, column values) pairs.  Fallible Python
code (raises at a site) is embedded in the Except monad with one error
constructor per failure site.
-/

namespace Scraper

/-- A cell value after extraction: text, or a number once coerced. -/
inductive Value where
  | vStr : String → Value
  | vNum : Rat → Value
deriving DecidableEq, Repr

/-- A data frame, columnar as in pandas: column name paired with its values. -/
abbrev DataFrame := List (String × List Value)

/-- Error kinds, one per raise site of the script. -/
inductive Err where
  | notFound     : Err  -- table id absent from the page (line 79: find returns None, dereferenced at 82)
  | emptyResult  : Err  -- values[0] on an empty filtered series (line 171)
  | keyError     : Err  -- column or table-id lookup miss in a data frame dictionary
  | typeError    : Err  -- ranking a non-numeric column
  | indexError   : Err  -- split()[-1] on an empty token list (line 145)
  | valueError   : Err  -- max() of an empty sequence (line 168)
deriving DecidableEq, Repr

/-- Turns an Option into an Except with the given error on none. -/
def orErr (e : Err) : Option α → Except Err α
  | some a => Except.ok a
  | none => Except.error e

/-! ## Type Normalizer (convert_columns_to_numeric, lines 111-126) -/

/-- Value of a run of decimal digit characters. -/
def digitsToNat (cs : List Char) : Nat :=
  cs.foldl (fun n c => 10 * n + (c.toNat - 48)) 0

/-- Splits a character list at the first dot, if any. -/
def breakAtDot : List Char → List Char × Option (List Char)
  | [] => ([], none)
  | c :: cs =>
    if c = '.' then ([], some cs)
    else
      let p := breakAtDot cs
      (c :: p.1, p.2)

/-- Modelled from the spec: the numeric parse used by pandas to_numeric on a
text cell, which is library code not in src.  The spec asks that values be
parsed "as numeric (integer or decimal)": an optional sign, then digits with
at most one decimal point and at least one digit. -/
def parseNumber (s : String) : Option Rat :=
  let cs := s.toList
  let signBody : Bool × List Char :=
    match cs with
    | '-' :: r => (true, r)
    | '+' :: r => (false, r)
    | r => (false, r)
  let sgn : Rat := if signBody.1 then -1 else 1
  let body := signBody.2
  match breakAtDot body with
  | (intPart, none) =>
    if intPart ≠ [] ∧ intPart.all Char.isDigit then
      some (sgn * (digitsToNat intPart : Rat))
    else none
  | (intPart, some fracPart) =>
    if (intPart ≠ [] ∨ fracPart ≠ []) ∧ intPart.all Char.isDigit ∧ fracPart.all Char.isDigit then
      some (sgn * ((digitsToNat intPart : Rat) + (digitsToNat fracPart : Rat) / (10 ^ fracPart.length)))
    else none

/-- Coercion of a single cell: a number stays itself, text parses or fails. -/
def toNumericValue : Value → Option Value
  | Value.vNum q => some (Value.vNum q)
  | Value.vStr s => (parseNumber s).map Value.vNum

/-- All-or-nothing coercion of a whole column: some only if every cell coerces. -/
def traverseNumeric : List Value → Option (List Value)
  | [] => some []
  | v :: vs =>
    match toNumericValue v, traverseNumeric vs with
    | some w, some ws => some (w :: ws)
    | _, _ => none

/-- Embeds pd.to_numeric with errors=ignore on one column (line 125): if any
cell fails to coerce the whole column is returned unchanged. -/
def to_numeric_ignore (c : List Value) : List Value :=
  match traverseNumeric c with
  | some c' => c'
  | none => c

/-- Embeds convert_columns_to_numeric (lines 111-126): each column of the
frame is independently coerced, all-or-nothing. -/
def convert_columns_to_numeric (df : DataFrame) : DataFrame :=
  df.map fun nc => (nc.1, to_numeric_ignore nc.2)

/-! ## Name Reducer (extract_surname, lines 130-145) -/

/-- Embeds the Python str.split() on line 145: splits on runs of whitespace,
producing no empty tokens.  The accumulator holds the current token reversed. -/
def pySplitAux : List Char → List Char → List String
  | [], [] => []
  | [], acc => [String.mk acc.reverse]
  | c :: cs, acc =>
    if c.isWhitespace then
      match acc with
      | [] => pySplitAux cs []
      | _ => String.mk acc.reverse :: pySplitAux cs []
    else pySplitAux cs (c :: acc)

/-- Python str.split() with no separator argument. -/
def pySplit (s : String) : List String :=
  pySplitAux s.toList []

/-- Embeds extract_surname (line 145): full_name.split()[-1].  Indexing [-1]
on an empty list raises, embedded as none. -/
def extract_surname (full_name : String) : Option String :=
  (pySplit full_name).getLast?

/-! ## Record Finder (lines 171-172 and the four analogous queries) -/

/-- Column lookup in a frame: df[name], the first column with that name. -/
def getCol (df : DataFrame) (name : String) : Option (List Value) :=
  (df.find? fun nc => nc.1 == name).map fun nc => nc.2

/-- Filters a column by a boolean mask, position-wise, as pandas row masking
does on each column of a frame. -/
def applyMask (c : List Value) (m : List Bool) : List Value :=
  (c.zip m).filterMap fun vb => if vb.2 then some vb.1 else none

/-- Maximum of a list of rationals. -/
def ratMax : Rat → List Rat → Rat
  | q, [] => q
  | q, r :: rs => ratMax (max q r) rs

/-- Dtype of a column in the model: numeric exactly when every cell is a
number; any textual cell makes it an object column. -/
def colAllNumeric : List Value → Bool
  | [] => true
  | Value.vNum _ :: vs => colAllNumeric vs
  | Value.vStr _ :: _ => false

/-- Embeds nlargest(1, col)[col].values[0] on a filtered series (line 171).
nlargest validates the dtype of the rank column before anything else, and
boolean-mask filtering preserves dtype, so the check reads the full
unfiltered column: any textual cell means object dtype and TypeError.
Only then does values[0] of an empty filtered series raise IndexError, the
empty-result failure; otherwise the maximum of the filtered cells is
returned. -/
def seriesMaxVal (col filtered : List Value) : Except Err Value :=
  if colAllNumeric col then
    match filtered with
    | [] => Except.error Err.emptyResult
    | v :: vs =>
      match toNumericOnly (v :: vs) with
      | some (q :: qs) => Except.ok (Value.vNum (ratMax q qs))
      | _ => Except.error Err.typeError
  else Except.error Err.typeError
where
  /-- Extracts the rationals of a column, none if any cell is textual. -/
  toNumericOnly : List Value → Option (List Rat)
    | [] => some []
    | Value.vNum q :: vs => (toNumericOnly vs).map fun qs => q :: qs
    | Value.vStr _ :: _ => none

/-- Applies extract_surname to one player cell, as Series.apply does per
element on line 172; a non-text cell cannot be split. -/
def valueSurname : Value → Except Err String
  | Value.vStr s => orErr Err.indexError (extract_surname s)
  | Value.vNum _ => Except.error Err.typeError

/-- Embeds one record query (lines 171-172, and the same shape at 175-188):
filter rows where df[pc] == pv, take the maximum of df[rc] among them
(line 171, raising on an empty filtered set), then select rows where both
df[pc] == pv and df[rc] == max and map their player cells through
extract_surname (line 172). -/
def find_top (df : DataFrame) (pc : String) (pv : Value) (rc : String) :
    Except Err (Value × List String) := do
  let pcol ← orErr Err.keyError (getCol df pc)
  let rcol ← orErr Err.keyError (getCol df rc)
  let mask := pcol.map fun v => v == pv
  let maxv ← seriesMaxVal rcol (applyMask rcol mask)
  let players ← orErr Err.keyError (getCol df "player")
  let mask2 := List.zipWith (fun a b => a && b) mask (rcol.map fun v => v == maxv)
  let surnames ← (applyMask players mask2).mapM valueSurname
  return (maxv, surnames)

/-- Spec-side description of the rows a record query selects, for the
refinement statement about the surname collection: the player cells of
the rows matching both the predicate and the maximum, one entry per row in
row order, with no deduplication. -/
def selectedPlayers (pcol rcol players : List Value) (pv maxv : Value) : List Value :=
  ((players.zip (pcol.zip rcol)).filter fun t => t.2.1 == pv && t.2.2 == maxv).map
    fun t => t.1

/-! ## Table Extractor (scrape_table, lines 54-107)

The browser fetch and the HTML parse are collaborators outside the
embedding: a page is modelled already parsed, as the association of table
ids to a table structure holding the data-stat identifiers of the header
cells and, per body row, the (data-stat, text) cells present in markup. -/

/-- A parsed HTML table: header data-stat identifiers in order, and body
rows as the cells present, each keyed by its data-stat identifier. -/
structure RawTable where
  headerStats : List String
  body : List (List (String × String))
deriving DecidableEq, Repr

/-- A rendered page, reduced to its tables keyed by id attribute. -/
abbrev Html := List (String × RawTable)

/-- Embeds soup.find with the id attribute (line 79): the first table whose
id matches, none when absent. -/
def findTable (html : Html) (table_id : String) : Option RawTable :=
  (html.find? fun it => it.1 == table_id).map fun it => it.2

/-- Embeds the cell lookup on line 94: the first td of the row whose
data-stat equals the header identifier. -/
def findCell (row : List (String × String)) (header : String) : Option String :=
  (row.find? fun st => st.1 == header).map fun st => st.2

/-- Embeds Python str.strip() on line 96: whitespace removed from both
ends of the cell text. -/
def pyStrip (s : String) : String :=
  String.mk
    (((s.toList.dropWhile Char.isWhitespace).reverse.dropWhile Char.isWhitespace).reverse)

/-- Embeds the row loop of lines 90-99: for each header identifier, the
trimmed text of the matching cell, or null (none) when absent. -/
def extractRows (headers : List String) (body : List (List (String × String))) :
    List (List (Option String)) :=
  body.map fun row => headers.map fun h => (findCell row h).map pyStrip

/-- Embeds df.dropna() on line 105: a row with any null cell is discarded. -/
def dropna (rows : List (List (Option String))) : List (List (Option String)) :=
  rows.filter fun r => r.all Option.isSome

/-- Embeds scrape_table (lines 54-107) from the parsed page on: locate the
table (dereferencing the find result, which raises when the table is
absent), drop the first header, build the row data with nulls for missing
cells, and drop rows with a null. -/
def scrape_table (html : Html) (table_id : String) :
    Except Err (List String × List (List (Option String))) := do
  let t ← orErr Err.notFound (findTable html table_id)
  let headers := t.headerStats.drop 1
  return (headers, dropna (extractRows headers t.body))

/-- Builds the columnar frame pd.DataFrame(data, columns=headers) makes of
the kept rows (line 102 after line 105); every kept cell is text. -/
def toDF (headers : List String) (rows : List (List (Option String))) : DataFrame :=
  (List.range headers.length).map fun i =>
    (headers.getD i "", rows.map fun r => Value.vStr (((r.getD i none).getD "")))

/-! ## Main run (lines 148-201): scrape loop, driver.quit, record queries -/

/-- One page of the loop body (lines 151-154): scrape the table and coerce
its columns, yielding the frame stored under the table id. -/
def scrapePage (html : Html) (table_id : String) : Except Err DataFrame := do
  let hr ← scrape_table html table_id
  return convert_columns_to_numeric (toDF hr.1 hr.2)

/-- Embeds the sequential for-loop of lines 150-154: pages are scraped in
order, and the first failure aborts the loop (the exception propagates). -/
def scrapeLoop : List (Html × String) → Except Err (List (String × DataFrame))
  | [] => Except.ok []
  | (html, tid) :: rest => do
    let df ← scrapePage html tid
    let dfs ← scrapeLoop rest
    return (tid, df) :: dfs

/-- Dictionary access dataframes[table_id] (lines 160-165): missing key
raises KeyError. -/
def lookupDF (dfs : List (String × DataFrame)) (tid : String) : Except Err DataFrame :=
  orErr Err.keyError ((dfs.find? fun td => td.1 == tid).map fun td => td.2)

/-- Python comparison of two cells for max(): numbers compare numerically,
strings lexicographically, and comparing a number with a string raises
TypeError. -/
def pyMax2 : Value → Value → Except Err Value
  | Value.vNum a, Value.vNum b => Except.ok (Value.vNum (max a b))
  | Value.vStr a, Value.vStr b => Except.ok (Value.vStr (if a < b then b else a))
  | _, _ => Except.error Err.typeError

/-- Folds the Python max() comparison over the rest of a sequence. -/
def pyMaxList : Value → List Value → Except Err Value
  | acc, [] => Except.ok acc
  | acc, v :: vs => do
    let m ← pyMax2 acc v
    pyMaxList m vs

/-- Embeds max(standard_stats[games]) on line 168: Python max iterates the
column, raising ValueError on an empty sequence and comparing cells with
the Python ordering (lexicographic for an all-textual column). -/
def maxGames (standard : DataFrame) : Except Err Value := do
  let games ← orErr Err.keyError (getCol standard "games")
  match games with
  | [] => Except.error Err.valueError
  | v :: vs => pyMaxList v vs

/-- The values the report template interpolates (lines 190-201). -/
structure Report where
  gw : Value
  shotsNoGoal : Value × List String
  xgNoGoal : Value × List String
  xagNoAssist : Value × List String
  kpNoAssist : Value × List String
  ppaNoAssist : Value × List String
deriving DecidableEq, Repr

/-- Embeds lines 160-188: bind the six frames (each lookup may raise), the
current matchweek, and the five record queries. -/
def computeReport (dfs : List (String × DataFrame)) : Except Err Report := do
  let standard ← lookupDF dfs "stats_standard"
  let shooting ← lookupDF dfs "stats_shooting"
  let passing ← lookupDF dfs "stats_passing"
  let _ ← lookupDF dfs "stats_defense"
  let _ ← lookupDF dfs "stats_playing_time"
  let _ ← lookupDF dfs "stats_misc"
  let gw ← maxGames standard
  let r1 ← find_top shooting "goals" (Value.vNum 0) "shots"
  let r2 ← find_top standard "goals" (Value.vNum 0) "xg"
  let r3 ← find_top standard "assists" (Value.vNum 0) "xg_assist"
  let r4 ← find_top passing "assists" (Value.vNum 0) "assisted_shots"
  let r5 ← find_top passing "assists" (Value.vNum 0) "passes_into_penalty_area"
  return { gw := gw, shotsNoGoal := r1, xgNoGoal := r2,
           xagNoAssist := r3, kpNoAssist := r4, ppaNoAssist := r5 }

/-- Embeds the whole run from line 150 to the end, tracking whether
driver.quit() on line 157 executed.  The quit call sits after the scrape
loop with no try/finally around the loop: an exception inside the loop
propagates past line 157, so quit runs exactly when the loop finishes;
the record stage runs after quit, so its failures leave quit executed. -/
def runScript (inputs : List (Html × String)) : Bool × Except Err Report :=
  match scrapeLoop inputs with
  | Except.error e => (false, Except.error e)
  | Except.ok dfs => (true, computeReport dfs)

/-- The six table ids of the pages list (lines 19-50), paired with the page
contents a run is given. -/
def pageIds : List String :=
  ["stats_standard", "stats_shooting", "stats_passing",
   "stats_defense", "stats_playing_time", "stats_misc"]

/-! ## Heap model for the in-place claim (lines 124-126)

The assignment df[col] = pd.to_numeric(df[col], ...) mutates the frame
object the function was given, and line 126 returns that same object.  The
mutation is embedded by explicit state passing: a store of frames indexed
by reference, the function updating the store at its argument reference
and returning the same reference. -/

/-- A store of frame objects, indexed by references (list positions). -/
abbrev Store := List DataFrame

/-- Embeds convert_columns_to_numeric seen with its effect on the heap:
the column assignments of line 125 update the referenced frame in the
store, and line 126 returns the reference unchanged. -/
def convert_columns_to_numeric_ref (s : Store) (r : Nat) : Store × Nat :=
  (s.set r (convert_columns_to_numeric (s.getD r [])), r)

/-! ## Helper lemmas -/

/-- Masking with an all-false mask selects nothing. -/
theorem applyMask_all_false (c : List Value) (m : List Bool)
    (h : ∀ b ∈ m, b = false) : applyMask c m = [] := by
  induction c generalizing m with
  | nil => simp [applyMask]
  | cons v vs ih =>
    cases m with
    | nil => simp [applyMask]
    | cons b bs =>
      have hb : b = false := h b (List.mem_cons_self b bs)
      subst hb
      have := ih bs fun x hx => h x (List.mem_cons_of_mem _ hx)
      simpa [applyMask, List.zip_cons_cons] using this

/-- Every row kept by dropna has no null cell. -/
theorem dropna_no_none (rows : List (List (Option String))) :
    ∀ r ∈ dropna rows, ∀ c ∈ r, c ≠ none := by
  intro r hr c hc
  have hall : r.all Option.isSome := (List.mem_filter.mp hr).2
  have := (List.all_eq_true.mp hall) c hc
  cases c with
  | none => simp at this
  | some s => simp

end Scraper

namespace Scraper

/-- C1: on the three-row table with players A, B, C, goals 0, 0, 1 and
shots 5, 5, 9, the record query filtering goals == 0 and ranking by shots
returns the pair of the maximum 5 and the surnames of both tied rows,
A and B; row C is excluded by the predicate. -/
theorem find_top_tie_example :
    find_top
      [("player", [Value.vStr "A", Value.vStr "B", Value.vStr "C"]),
       ("goals", [Value.vNum 0, Value.vNum 0, Value.vNum 1]),
       ("shots", [Value.vNum 5, Value.vNum 5, Value.vNum 9])]
      "goals" (Value.vNum 0) "shots"
      = Except.ok (Value.vNum 5, ["A", "B"]) := rfl

/-- C2 is false as stated: a table whose rank column stayed textual and
whose predicate matches no row raises the dtype TypeError of nlargest, not
the empty-result error, because nlargest validates the dtype of the rank
column before looking at the empty filtered series. -/
theorem find_top_empty_filter_textual :
    find_top [("player", [Value.vStr "C"]), ("goals", [Value.vNum 1]),
              ("shots", [Value.vStr "n/a"])] "goals" (Value.vNum 0) "shots"
      = Except.error Err.typeError ∧ Err.typeError ≠ Err.emptyResult :=
  ⟨rfl, by decide⟩

/-- C2 corrected: whenever the predicate and rank columns exist, the rank
column is numeric (the dtype check of nlargest precedes everything and
masking preserves dtype), and none of the predicate values equals the
target, the record query fails with the empty-result error: the filtered
series is empty and taking its first value raises, surfaced as an explicit
error rather than a default value. -/
theorem find_top_empty_filter_numeric (df : DataFrame) (pc : String) (pv : Value)
    (rc : String) (pcol rcol : List Value)
    (hp : getCol df pc = some pcol) (hr : getCol df rc = some rcol)
    (hnum : colAllNumeric rcol = true)
    (hnone : ∀ v ∈ pcol, v ≠ pv) :
    find_top df pc pv rc = Except.error Err.emptyResult := by
  have hmask : ∀ b ∈ pcol.map (fun v => v == pv), b = false := by
    intro b hb
    obtain ⟨v, hv, hbv⟩ := List.mem_map.mp hb
    subst hbv
    exact beq_eq_false_iff_ne.mpr (hnone v hv)
  have hm : applyMask rcol (pcol.map fun v => v == pv) = [] :=
    applyMask_all_false _ _ hmask
  simp [find_top, hp, hr, orErr, hm, seriesMaxVal, hnum, bind, Except.bind]

/-- Closed witness for the corrected C2: a one-row table with a numeric
shots column whose only goals value is 1, queried with target 0. -/
theorem find_top_empty_filter_numeric_witness :
    find_top [("player", [Value.vStr "C"]), ("goals", [Value.vNum 1]),
              ("shots", [Value.vNum 9])] "goals" (Value.vNum 0) "shots"
      = Except.error Err.emptyResult :=
  find_top_empty_filter_numeric _ "goals" (Value.vNum 0) "shots"
    [Value.vNum 1] [Value.vNum 9] rfl rfl rfl (by decide)

/-- C6: on a page with no table carrying the requested id, extraction fails
with the distinguished missing-table error (the find on line 79 comes back
empty and the very next dereference raises, embedded as notFound), not with
success or an error from a later stage. -/
theorem scrape_table_missing (html : Html) (table_id : String)
    (h : ∀ it ∈ html, it.1 ≠ table_id) :
    scrape_table html table_id = Except.error Err.notFound := by
  have hnone : List.find? (fun it => it.1 == table_id) html = none :=
    List.find?_eq_none.mpr fun it hit => by simpa using h it hit
  have hfind : findTable html table_id = none := by
    simp [findTable, hnone]
  simp [scrape_table, hfind, orErr]

/-- Closed witness for C6: a page holding only the misc table, asked for
the standard table. -/
theorem scrape_table_missing_witness :
    scrape_table [("stats_misc", ⟨[], []⟩)] "stats_standard"
      = Except.error Err.notFound :=
  scrape_table_missing [("stats_misc", ⟨[], []⟩)] "stats_standard" (by decide)

/-- C3: every row of a table returned by extraction is free of nulls: the
rows surviving the dropna on line 105 all pass the all-cells-present test,
so no null value reaches the returned table. -/
theorem scrape_table_no_nulls (html : Html) (table_id : String)
    (headers : List String) (rows : List (List (Option String)))
    (h : scrape_table html table_id = Except.ok (headers, rows)) :
    ∀ r ∈ rows, ∀ c ∈ r, c ≠ none := by
  cases hfind : findTable html table_id with
  | none => simp [scrape_table, hfind, orErr] at h
  | some t =>
    have hrows : rows = dropna (extractRows (t.headerStats.drop 1) t.body) := by
      simp only [scrape_table, hfind, orErr, bind, Except.bind, pure, Except.pure,
        Except.ok.injEq, Prod.mk.injEq] at h
      exact h.2.symm
    subst hrows
    exact dropna_no_none _

/-- Closed witness for C3: a page whose table has a complete first body row
and a second row missing the goals cell; extraction keeps only the
complete row, and its first cell is not null. -/
theorem scrape_table_no_nulls_witness :
    (some "A" : Option String) ≠ none :=
  scrape_table_no_nulls
    [("t", ⟨["ranker", "player", "goals"],
            [[("player", "A"), ("goals", "0")], [("player", "B")]]⟩)]
    "t" ["player", "goals"] [[some "A", some "0"]] rfl
    [some "A", some "0"] (by simp) (some "A") (by simp)

/-- Splitting an all-whitespace character list with an empty accumulator
yields no tokens. -/
theorem pySplitAux_all_ws (cs : List Char)
    (h : ∀ c ∈ cs, c.isWhitespace = true) : pySplitAux cs [] = [] := by
  induction cs with
  | nil => rfl
  | cons c rest ih =>
    have hc : c.isWhitespace = true := h c (List.mem_cons_self c rest)
    have := ih fun x hx => h x (List.mem_cons_of_mem _ hx)
    simp [pySplitAux, hc, this]

/-- C10: extract_surname is partial at its interface: on an input whose
characters are all whitespace (the empty string included) the token list is
empty and indexing it raises, embedded as none; on an input with at least
one token the last token is returned. -/
theorem extract_surname_spec (s : String) :
    ((∀ c ∈ s.toList, c.isWhitespace = true) → extract_surname s = none) ∧
    (∀ ts t, pySplit s = ts ++ [t] → extract_surname s = some t) := by
  constructor
  · intro h
    have h0 : pySplit s = [] := pySplitAux_all_ws s.toList h
    simp [extract_surname, h0]
  · intro ts t h
    simp [extract_surname, h]

/-- Closed witness for C10: the all-blank name fails, a two-token name
returns its last token. -/
theorem extract_surname_spec_witness :
    extract_surname "   " = none ∧ extract_surname "Erling Haaland" = some "Haaland" :=
  ⟨(extract_surname_spec "   ").1 (by decide),
   (extract_surname_spec "Erling Haaland").2 ["Erling"] "Haaland" rfl⟩

/-- When every cell coerces, the column traversal succeeds with the
pointwise coercions. -/
theorem traverseNumeric_all_some (c : List Value)
    (h : ∀ v ∈ c, (toNumericValue v).isSome) :
    traverseNumeric c = some (c.map fun v => (toNumericValue v).getD v) := by
  induction c with
  | nil => rfl
  | cons v vs ih =>
    obtain ⟨w, hw⟩ := Option.isSome_iff_exists.mp (h v (List.mem_cons_self v vs))
    have htail := ih fun x hx => h x (List.mem_cons_of_mem _ hx)
    simp [traverseNumeric, hw, htail]

/-- When some cell fails to coerce, the column traversal fails. -/
theorem traverseNumeric_has_none (c : List Value)
    (h : ∃ v ∈ c, toNumericValue v = none) : traverseNumeric c = none := by
  induction c with
  | nil => simp at h
  | cons v vs ih =>
    obtain ⟨w, hw, hwnone⟩ := h
    rcases List.mem_cons.mp hw with heq | hmem
    · subst heq
      simp [traverseNumeric, hwnone]
    · have htail := ih ⟨w, hmem, hwnone⟩
      cases hv : toNumericValue v <;> simp [traverseNumeric, htail, hv]

/-- C4: normalization is columnwise and all-or-nothing: the frame after
conversion holds, at each position, the same column name with its coerced
column; a column where every cell parses is replaced by the pointwise
numeric form, and a column with any unparseable cell is returned unchanged
(no exception: the function is total). -/
theorem convert_columnwise (df : DataFrame) (i : Nat) (n : String) (c : List Value)
    (h : df[i]? = some (n, c)) :
    (convert_columns_to_numeric df)[i]? = some (n, to_numeric_ignore c) ∧
    ((∀ v ∈ c, (toNumericValue v).isSome) →
      to_numeric_ignore c = c.map fun v => (toNumericValue v).getD v) ∧
    ((∃ v ∈ c, toNumericValue v = none) → to_numeric_ignore c = c) := by
  refine ⟨?_, ?_, ?_⟩
  · simp [convert_columns_to_numeric, List.getElem?_map, h]
  · intro hall
    simp [to_numeric_ignore, traverseNumeric_all_some c hall]
  · intro hsome
    simp [to_numeric_ignore, traverseNumeric_has_none c hsome]

/-- Closed witness for C4: the column 12, 7, n/a keeps all three cells
textual because n/a does not parse. -/
theorem convert_columnwise_witness :
    (convert_columns_to_numeric
        [("x", [Value.vStr "12", Value.vStr "7", Value.vStr "n/a"])])[0]?
      = some ("x", [Value.vStr "12", Value.vStr "7", Value.vStr "n/a"]) := by
  have h := convert_columnwise
    [("x", [Value.vStr "12", Value.vStr "7", Value.vStr "n/a"])] 0
    "x" [Value.vStr "12", Value.vStr "7", Value.vStr "n/a"] rfl
  have hstay := h.2.2 ⟨Value.vStr "n/a", by simp, rfl⟩
  rw [hstay] at h
  exact h.1

/-- Every output of a successful cell coercion is numeric. -/
theorem toNumericValue_out (v w : Value) (h : toNumericValue v = some w) :
    ∃ q, w = Value.vNum q := by
  cases v with
  | vNum q =>
    simp [toNumericValue] at h
    exact ⟨q, h.symm⟩
  | vStr s =>
    simp [toNumericValue] at h
    obtain ⟨q, _, hq⟩ := h
    exact ⟨q, hq.symm⟩

/-- Every cell of a successfully coerced column is numeric. -/
theorem traverseNumeric_out (c c' : List Value) (h : traverseNumeric c = some c') :
    ∀ v ∈ c', ∃ q, v = Value.vNum q := by
  induction c generalizing c' with
  | nil =>
    simp [traverseNumeric] at h
    subst h
    simp
  | cons v vs ih =>
    simp only [traverseNumeric] at h
    cases hv : toNumericValue v with
    | none => rw [hv] at h; simp at h
    | some w =>
      cases htv : traverseNumeric vs with
      | none => rw [hv, htv] at h; simp at h
      | some ws =>
        rw [hv, htv] at h
        simp only [Option.some.injEq] at h
        subst h
        intro x hx
        rcases List.mem_cons.mp hx with heq | hmem
        · subst heq
          exact toNumericValue_out v x hv
        · exact ih ws htv x hmem

/-- A column of numeric cells traverses to itself. -/
theorem traverseNumeric_fixed (c : List Value)
    (h : ∀ v ∈ c, ∃ q, v = Value.vNum q) : traverseNumeric c = some c := by
  induction c with
  | nil => rfl
  | cons v vs ih =>
    obtain ⟨q, hq⟩ := h v (List.mem_cons_self v vs)
    subst hq
    have := ih fun x hx => h x (List.mem_cons_of_mem _ hx)
    simp [traverseNumeric, toNumericValue, this]

/-- Column-level idempotence of the all-or-nothing coercion. -/
theorem to_numeric_ignore_idem (c : List Value) :
    to_numeric_ignore (to_numeric_ignore c) = to_numeric_ignore c := by
  cases h : traverseNumeric c with
  | none => simp [to_numeric_ignore, h]
  | some c' =>
    have hfix : traverseNumeric c' = some c' :=
      traverseNumeric_fixed c' (traverseNumeric_out c c' h)
    simp [to_numeric_ignore, h, hfix]

/-- C5: normalization is idempotent: converting an already converted frame
changes nothing, because a coerced column is all numeric and re-traverses
to itself, and an unconverted column fails to traverse again. -/
theorem convert_idempotent (df : DataFrame) :
    convert_columns_to_numeric (convert_columns_to_numeric df)
      = convert_columns_to_numeric df := by
  induction df with
  | nil => rfl
  | cons nc rest ih =>
    simp only [convert_columns_to_numeric, List.map_cons] at ih ⊢
    rw [to_numeric_ignore_idem, ih]

/-- Masking a column with the conjunction of the two equality masks selects
exactly the spec-side row selection, in order. -/
theorem applyMask_eq_selectedPlayers (players pcol rcol : List Value)
    (pv maxv : Value) :
    applyMask players (List.zipWith (fun a b => a && b)
        (pcol.map fun v => v == pv) (rcol.map fun v => v == maxv))
      = selectedPlayers pcol rcol players pv maxv := by
  induction players generalizing pcol rcol with
  | nil => simp [applyMask, selectedPlayers]
  | cons pl pls ih =>
    cases pcol with
    | nil => simp [applyMask, selectedPlayers]
    | cons p ps =>
      cases rcol with
      | nil => simp [applyMask, selectedPlayers]
      | cons r rs =>
        have ih2 := ih ps rs
        cases hb : (p == pv && r == maxv) <;>
          simp [applyMask, selectedPlayers, hb] <;>
          simpa [applyMask, selectedPlayers] using ih2

/-- C7 corrected: the surname collection a record query returns is the
rowwise image of the selected player cells under the reducer, one entry
per selected row in row order, without deduplication. -/
theorem find_top_surnames_rowwise (df : DataFrame) (pc : String) (pv : Value)
    (rc : String) (pcol rcol players : List Value) (maxv : Value)
    (surnames : List String)
    (hp : getCol df pc = some pcol) (hr : getCol df rc = some rcol)
    (hpl : getCol df "player" = some players)
    (h : find_top df pc pv rc = Except.ok (maxv, surnames)) :
    (selectedPlayers pcol rcol players pv maxv).mapM valueSurname
      = Except.ok surnames := by
  simp only [find_top, hp, hr, hpl, orErr, bind, Except.bind, pure, Except.pure] at h
  split at h
  · simp at h
  · split at h
    · simp at h
    · rename_i heqmap
      simp only [Except.ok.injEq, Prod.mk.injEq] at h
      obtain ⟨hm, hs⟩ := h
      subst hm
      subst hs
      rw [applyMask_eq_selectedPlayers] at heqmap
      exact heqmap

/-- C7 is false as stated: two distinct tied players sharing a surname make
the returned collection repeat that surname, so it is not deduplicated. -/
theorem find_top_duplicate_surnames :
    find_top
      [("player", [Value.vStr "X Smith", Value.vStr "Y Smith"]),
       ("goals", [Value.vNum 0, Value.vNum 0]),
       ("shots", [Value.vNum 5, Value.vNum 5])]
      "goals" (Value.vNum 0) "shots"
      = Except.ok (Value.vNum 5, ["Smith", "Smith"]) ∧
    ¬ (["Smith", "Smith"] : List String).Nodup :=
  ⟨rfl, by simp⟩

/-- Closed witness for the corrected C7: both selected Doe players yield
one surname entry each, in row order. -/
theorem find_top_surnames_rowwise_witness :
    (selectedPlayers [Value.vNum 0, Value.vNum 0] [Value.vNum 5, Value.vNum 5]
        [Value.vStr "X Doe", Value.vStr "Y Doe"] (Value.vNum 0)
        (Value.vNum 5)).mapM valueSurname = Except.ok ["Doe", "Doe"] :=
  find_top_surnames_rowwise
    [("player", [Value.vStr "X Doe", Value.vStr "Y Doe"]),
     ("goals", [Value.vNum 0, Value.vNum 0]),
     ("shots", [Value.vNum 5, Value.vNum 5])]
    "goals" (Value.vNum 0) "shots" _ _ _ _ _ rfl rfl rfl rfl

/-- C8 is false as stated: a run whose first page lacks its table raises
inside the scrape loop, the exception propagates past line 157, and the
quit call never executes, leaking the browser session. -/
theorem runScript_leaks_on_error :
    runScript (pageIds.map fun tid => (([] : Html), tid))
      = (false, Except.error Err.notFound) := rfl

/-- C8 corrected: the session is released exactly on the runs whose whole
scrape loop succeeds: quit on line 157 runs once the loop finishes, even
when the record stage afterwards fails, and is skipped whenever a scrape
or coercion step raises. -/
theorem runScript_quit_iff_loop_ok (inputs : List (Html × String)) :
    ((runScript inputs).1 = true ↔ ∃ dfs, scrapeLoop inputs = Except.ok dfs) := by
  cases h : scrapeLoop inputs with
  | error e => simp [runScript, h]
  | ok dfs => simp [runScript, h]

/-- C9: the coercion is in place: with the heap made explicit, the call
returns the very reference it was given, the frame stored at that
reference is afterwards the normalized frame, and every other reference is
untouched, so no unnormalized copy of the input survives the call. -/
theorem convert_ref_in_place (s : Store) (r : Nat) (h : r < s.length) :
    (convert_columns_to_numeric_ref s r).2 = r ∧
    (convert_columns_to_numeric_ref s r).1.getD r []
      = convert_columns_to_numeric (s.getD r []) ∧
    ∀ j, j ≠ r → (convert_columns_to_numeric_ref s r).1.getD j [] = s.getD j [] := by
  refine ⟨rfl, ?_, ?_⟩
  · simp [convert_columns_to_numeric_ref, List.getD_eq_getElem?_getD,
      List.getElem?_set, h]
  · intro j hj
    simp [convert_columns_to_numeric_ref, List.getD_eq_getElem?_getD,
      List.getElem?_set, Ne.symm hj]

/-- Closed witness for C9: a one-frame store, reference 0. -/
theorem convert_ref_in_place_witness :
    (convert_columns_to_numeric_ref [[("x", [Value.vStr "1"])]] 0).2 = 0 :=
  (convert_ref_in_place [[("x", [Value.vStr "1"])]] 0 (by decide)).1

end Scraper
